import Mathlib

/-!
Verification of `src/output/modifiers.rs` from the voxtype repository.

The module releases held keyboard modifier keys by spawning one of two
external tools: it tries `wtype` first and falls back to `ydotool`.
We embed the module shallowly: a spawn environment maps each command
specification (program name, argument list, stdio configuration) to a
spawn outcome (an OS-level spawn error, or a completed process with an
exit status and captured stdout/stderr bytes).  Each embedded function
returns its Rust result together with the ordered list of commands it
attempted to spawn.
-/

namespace Voxtype

/-- Stdio configuration for a child process stream, as in `std::process::Stdio`. -/
inductive Stdio where
  | null
  | piped
  deriving DecidableEq, Repr

/-- A command invocation: program name, argument list, and the stdio
configuration applied to the child's stdout and stderr. -/
structure CommandSpec where
  program : String
  args : List String
  stdoutCfg : Stdio
  stderrCfg : Stdio
  deriving DecidableEq, Repr

/-- Outcome of attempting to spawn and await a command:
either the spawn itself fails with an OS error (e.g. executable not found),
or the process runs to completion with an exit status (`success` is the
`ExitStatus::success()` flag) and captured stdout/stderr byte streams. -/
inductive SpawnOutcome where
  | spawnErr (osError : String)
  | exited (success : Bool) (stdoutBytes : List Nat) (stderrBytes : List Nat)
  deriving DecidableEq, Repr

/-- The world in which the program runs: what happens when each command
specification is spawned. -/
def Env : Type := CommandSpec → SpawnOutcome

/-- `true` exactly when the outcome is a completed process with success status. -/
def statusOk : SpawnOutcome → Bool
  | SpawnOutcome.spawnErr _ => false
  | SpawnOutcome.exited s _ _ => s

/-- `Result::is_ok` on our embedding of `Result<(), String>`. -/
def is_ok {ε α : Type} : Except ε α → Bool
  | Except.ok _ => true
  | Except.error _ => false

/-- Is `b` a UTF-8 continuation byte (`0x80..=0xBF`)? -/
def isCont (b : Nat) : Bool := 0x80 ≤ b && b ≤ 0xBF

/-- Valid range for the second byte of a three-byte UTF-8 sequence
with lead byte `b1` (restricted for `0xE0` and `0xED` to exclude
overlong encodings and surrogates). -/
def cont3ok (b1 b2 : Nat) : Bool :=
  if b1 = 0xE0 then 0xA0 ≤ b2 && b2 ≤ 0xBF
  else if b1 = 0xED then 0x80 ≤ b2 && b2 ≤ 0x9F
  else isCont b2

/-- Valid range for the second byte of a four-byte UTF-8 sequence
with lead byte `b1` (restricted for `0xF0` and `0xF4` to exclude
overlong encodings and code points above `U+10FFFF`). -/
def cont4ok (b1 b2 : Nat) : Bool :=
  if b1 = 0xF0 then 0x90 ≤ b2 && b2 ≤ 0xBF
  else if b1 = 0xF4 then 0x80 ≤ b2 && b2 ≤ 0x8F
  else isCont b2

/-- UTF-8 decoding with replacement of invalid maximal subparts by
`U+FFFD`, as performed by Rust's `String::from_utf8_lossy`.  The first
argument is fuel; each step consumes at least one byte, so fuel equal to
the list length suffices. -/
def utf8LossyAux : Nat → List Nat → List Nat
  | 0, _ => []
  | _ + 1, [] => []
  | fuel + 1, b1 :: rest =>
    if b1 < 0x80 then b1 :: utf8LossyAux fuel rest
    else if 0xC2 ≤ b1 && b1 ≤ 0xDF then
      match rest with
      | b2 :: rest2 =>
        if isCont b2 then
          ((b1 - 0xC0) * 0x40 + (b2 - 0x80)) :: utf8LossyAux fuel rest2
        else 0xFFFD :: utf8LossyAux fuel rest
      | [] => [0xFFFD]
    else if 0xE0 ≤ b1 && b1 ≤ 0xEF then
      match rest with
      | b2 :: rest2 =>
        if cont3ok b1 b2 then
          match rest2 with
          | b3 :: rest3 =>
            if isCont b3 then
              ((b1 - 0xE0) * 0x1000 + (b2 - 0x80) * 0x40 + (b3 - 0x80)) ::
                utf8LossyAux fuel rest3
            else 0xFFFD :: utf8LossyAux fuel rest2
          | [] => [0xFFFD]
        else 0xFFFD :: utf8LossyAux fuel rest
      | [] => [0xFFFD]
    else if 0xF0 ≤ b1 && b1 ≤ 0xF4 then
      match rest with
      | b2 :: rest2 =>
        if cont4ok b1 b2 then
          match rest2 with
          | b3 :: rest3 =>
            if isCont b3 then
              match rest3 with
              | b4 :: rest4 =>
                if isCont b4 then
                  ((b1 - 0xF0) * 0x40000 + (b2 - 0x80) * 0x1000 +
                      (b3 - 0x80) * 0x40 + (b4 - 0x80)) ::
                    utf8LossyAux fuel rest4
                else 0xFFFD :: utf8LossyAux fuel rest3
              | [] => [0xFFFD]
            else 0xFFFD :: utf8LossyAux fuel rest2
          | [] => [0xFFFD]
        else 0xFFFD :: utf8LossyAux fuel rest
      | [] => [0xFFFD]
    else 0xFFFD :: utf8LossyAux fuel rest

/-- `String::from_utf8_lossy`: decode a byte sequence as UTF-8,
replacing invalid parts with the replacement character `U+FFFD`. -/
def from_utf8_lossy (bytes : List Nat) : String :=
  String.mk ((utf8LossyAux bytes.length bytes).map Char.ofNat)

/-- The fixed argument list passed to `wtype`: release each of the five
modifier identifiers. -/
def wtype_args : List String :=
  ["-m", "shift", "-m", "ctrl", "-m", "logo", "-m", "alt", "-m", "altgr"]

/-- The fixed argument list passed to `ydotool`: the `key` subcommand and
eight `code:0` release tokens. -/
def ydotool_args : List String :=
  ["key", "42:0", "54:0", "29:0", "97:0", "56:0", "100:0", "125:0", "126:0"]

/-- The command spawned by `release_modifiers_wtype`:
`wtype` with the five `-m` flags, stdout null, stderr piped. -/
def wtype_cmd : CommandSpec :=
  { program := "wtype", args := wtype_args
    stdoutCfg := Stdio.null, stderrCfg := Stdio.piped }

/-- The command spawned by `release_modifiers_ydotool`:
`ydotool key` with the eight release tokens, stdout null, stderr piped. -/
def ydotool_cmd : CommandSpec :=
  { program := "ydotool", args := ydotool_args
    stdoutCfg := Stdio.null, stderrCfg := Stdio.piped }

/-- Embedding of `release_modifiers_wtype`: spawn `wtype` with the fixed
arguments; a spawn error yields `Err("wtype failed: {e}")`, a non-zero
exit yields `Err("wtype error: {stderr}")` with the lossily decoded
stderr, and a successful exit yields `Ok(())`.  The second component
records the commands this call attempted to spawn, in order. -/
def release_modifiers_wtype (env : Env) : Except String Unit × List CommandSpec :=
  match env wtype_cmd with
  | SpawnOutcome.spawnErr e =>
      (Except.error ("wtype failed: " ++ e), [wtype_cmd])
  | SpawnOutcome.exited success _ stderrBytes =>
      if success then (Except.ok (), [wtype_cmd])
      else
        (Except.error ("wtype error: " ++ from_utf8_lossy stderrBytes), [wtype_cmd])

/-- Embedding of `release_modifiers_ydotool`: spawn `ydotool` with the
fixed arguments; a spawn error yields `Err("ydotool failed: {e}")`, a
non-zero exit yields `Err("ydotool error: {stderr}")`, and a successful
exit yields `Ok(())`. -/
def release_modifiers_ydotool (env : Env) : Except String Unit × List CommandSpec :=
  match env ydotool_cmd with
  | SpawnOutcome.spawnErr e =>
      (Except.error ("ydotool failed: " ++ e), [ydotool_cmd])
  | SpawnOutcome.exited success _ stderrBytes =>
      if success then (Except.ok (), [ydotool_cmd])
      else
        (Except.error ("ydotool error: " ++ from_utf8_lossy stderrBytes), [ydotool_cmd])

/-- Embedding of `release_all_modifiers`: try `wtype`; if its result
`is_ok`, return `Ok(())`; otherwise try `ydotool`; if its result
`is_ok`, return `Ok(())`; otherwise return the fixed error string. -/
def release_all_modifiers (env : Env) : Except String Unit × List CommandSpec :=
  let w := release_modifiers_wtype env
  if is_ok w.1 then (Except.ok (), w.2)
  else
    let y := release_modifiers_ydotool env
    if is_ok y.1 then (Except.ok (), w.2 ++ y.2)
    else
      (Except.error "No tool available to release modifiers (tried wtype, ydotool)",
        w.2 ++ y.2)

/-- An environment in which every spawn succeeds with exit status 0. -/
def envAllOk : Env := fun _ => SpawnOutcome.exited true [] []

/-- An environment in which the `wtype` executable is missing and
`ydotool` exits 0. -/
def envWtypeMissing : Env := fun c =>
  if c.program = "wtype" then
    SpawnOutcome.spawnErr "No such file or directory (os error 2)"
  else SpawnOutcome.exited true [] []

/-- An environment in which both executables are missing. -/
def envBothMissing : Env :=
  fun _ => SpawnOutcome.spawnErr "No such file or directory (os error 2)"

/-- The ASCII bytes of the string "permission denied". -/
def permissionDeniedBytes : List Nat :=
  [112, 101, 114, 109, 105, 115, 115, 105, 111, 110, 32,
   100, 101, 110, 105, 101, 100]

/-- An environment in which `wtype` exits 1 with stderr
"permission denied" and `ydotool` exits 0. -/
def envWtypeDenied : Env := fun c =>
  if c.program = "wtype" then
    SpawnOutcome.exited false [] permissionDeniedBytes
  else SpawnOutcome.exited true [] []

/-- An environment in which every spawned tool exits 1 and writes the
invalid UTF-8 byte `0xFF` to stderr. -/
def envBadUtf8 : Env := fun _ => SpawnOutcome.exited false [] [255]

/-- An environment with the same spawn outcomes and exit statuses as
`envBadUtf8` but different stderr bytes. -/
def envBadUtf8Alt : Env := fun _ => SpawnOutcome.exited false [] [97]

/-- An environment that differs from `envAllOk` only in the bytes the
tools write to stdout. -/
def envStdoutNoise : Env := fun _ => SpawnOutcome.exited true [97, 98] []

/-- Two spawn outcomes agree on everything the claim fixes: the spawn
outcome (same constructor, same OS error text) and the exit status; the
stdout and stderr byte streams may differ. -/
def sameStatus : SpawnOutcome → SpawnOutcome → Prop
  | SpawnOutcome.spawnErr e1, SpawnOutcome.spawnErr e2 => e1 = e2
  | SpawnOutcome.exited s1 _ _, SpawnOutcome.exited s2 _ _ => s1 = s2
  | _, _ => False

/-- Two spawn outcomes agree on everything except possibly the bytes
written to stdout. -/
def sameExceptStdout : SpawnOutcome → SpawnOutcome → Prop
  | SpawnOutcome.spawnErr e1, SpawnOutcome.spawnErr e2 => e1 = e2
  | SpawnOutcome.exited s1 _ e1, SpawnOutcome.exited s2 _ e2 => s1 = s2 ∧ e1 = e2
  | _, _ => False

theorem statusOk_eq_of_sameStatus (o1 o2 : SpawnOutcome) (h : sameStatus o1 o2) :
    statusOk o1 = statusOk o2 := by
  rcases o1 with e | ⟨s, so, se⟩ <;> rcases o2 with e2 | ⟨s2, so2, se2⟩ <;>
    simp [sameStatus] at h <;> simp [statusOk, h]

theorem wtype_trace_eq (env : Env) :
    (release_modifiers_wtype env).2 = [wtype_cmd] := by
  unfold release_modifiers_wtype
  rcases env wtype_cmd with e | ⟨s, so, se⟩
  · rfl
  · cases s <;> rfl

theorem ydotool_trace_eq (env : Env) :
    (release_modifiers_ydotool env).2 = [ydotool_cmd] := by
  unfold release_modifiers_ydotool
  rcases env ydotool_cmd with e | ⟨s, so, se⟩
  · rfl
  · cases s <;> rfl

theorem wtype_is_ok_eq (env : Env) :
    is_ok (release_modifiers_wtype env).1 = statusOk (env wtype_cmd) := by
  unfold release_modifiers_wtype
  rcases env wtype_cmd with e | ⟨s, so, se⟩
  · rfl
  · cases s <;> rfl

theorem ydotool_is_ok_eq (env : Env) :
    is_ok (release_modifiers_ydotool env).1 = statusOk (env ydotool_cmd) := by
  unfold release_modifiers_ydotool
  rcases env ydotool_cmd with e | ⟨s, so, se⟩
  · rfl
  · cases s <;> rfl

theorem all_modifiers_ok_eq (env : Env) :
    is_ok (release_all_modifiers env).1 =
      (statusOk (env wtype_cmd) || statusOk (env ydotool_cmd)) := by
  unfold release_all_modifiers
  rw [show (release_modifiers_wtype env) =
        ((release_modifiers_wtype env).1, (release_modifiers_wtype env).2) from rfl]
  by_cases hw : is_ok (release_modifiers_wtype env).1 = true
  · simp only [hw, if_pos]
    rw [← wtype_is_ok_eq env, hw]
    rfl
  · have hw' : is_ok (release_modifiers_wtype env).1 = false := by
      cases h : is_ok (release_modifiers_wtype env).1
      · rfl
      · exact absurd h hw
    simp only [hw', Bool.false_eq_true, if_neg, if_false]
    rw [← wtype_is_ok_eq env, hw', Bool.false_or]
    by_cases hy : is_ok (release_modifiers_ydotool env).1 = true
    · simp only [hy, if_pos]
      rw [← ydotool_is_ok_eq env, hy]
      rfl
    · have hy' : is_ok (release_modifiers_ydotool env).1 = false := by
        cases h : is_ok (release_modifiers_ydotool env).1
        · rfl
        · exact absurd h hy
      simp only [hy', Bool.false_eq_true, if_false]
      rw [← ydotool_is_ok_eq env, hy']
      rfl

theorem all_modifiers_trace_eq (env : Env) :
    (release_all_modifiers env).2 =
      if statusOk (env wtype_cmd) then [wtype_cmd] else [wtype_cmd, ydotool_cmd] := by
  unfold release_all_modifiers
  by_cases hw : is_ok (release_modifiers_wtype env).1 = true
  · simp only [hw, if_pos]
    rw [← wtype_is_ok_eq env, hw, if_pos rfl]
    exact wtype_trace_eq env
  · have hw' : is_ok (release_modifiers_wtype env).1 = false := by
      cases h : is_ok (release_modifiers_wtype env).1
      · rfl
      · exact absurd h hw
    have hS : statusOk (env wtype_cmd) = false := by rw [← wtype_is_ok_eq env, hw']
    simp only [hw', Bool.false_eq_true, if_false, hS]
    by_cases hy : is_ok (release_modifiers_ydotool env).1 = true
    · simp only [hy, if_pos]
      rw [wtype_trace_eq env, ydotool_trace_eq env]
      rfl
    · have hy' : is_ok (release_modifiers_ydotool env).1 = false := by
        cases h : is_ok (release_modifiers_ydotool env).1
        · rfl
        · exact absurd h hy
      simp only [hy', Bool.false_eq_true, if_false]
      rw [wtype_trace_eq env, ydotool_trace_eq env]
      rfl

theorem all_modifiers_result_cases (env : Env) :
    (release_all_modifiers env).1 = Except.ok () ∨
      (release_all_modifiers env).1 =
        Except.error "No tool available to release modifiers (tried wtype, ydotool)" := by
  unfold release_all_modifiers
  by_cases hw : is_ok (release_modifiers_wtype env).1 = true
  · simp only [hw, if_pos]
    exact Or.inl trivial
  · have hw' : is_ok (release_modifiers_wtype env).1 = false := by
      cases h : is_ok (release_modifiers_wtype env).1
      · rfl
      · exact absurd h hw
    simp only [hw', Bool.false_eq_true, if_false]
    by_cases hy : is_ok (release_modifiers_ydotool env).1 = true
    · simp only [hy, if_pos]
      exact Or.inl trivial
    · have hy' : is_ok (release_modifiers_ydotool env).1 = false := by
        cases h : is_ok (release_modifiers_ydotool env).1
        · rfl
        · exact absurd h hy
      simp only [hy', Bool.false_eq_true, if_false]
      exact Or.inr trivial

theorem all_modifiers_result_of_fail (env : Env)
    (hw : statusOk (env wtype_cmd) = false)
    (hy : statusOk (env ydotool_cmd) = false) :
    (release_all_modifiers env).1 =
      Except.error "No tool available to release modifiers (tried wtype, ydotool)" := by
  rcases all_modifiers_result_cases env with h | h
  · exfalso
    have := all_modifiers_ok_eq env
    rw [hw, hy, h] at this
    simp [is_ok] at this
  · exact h

theorem all_modifiers_result_of_ok (env : Env)
    (h : is_ok (release_all_modifiers env).1 = true) :
    (release_all_modifiers env).1 = Except.ok () := by
  rcases all_modifiers_result_cases env with h2 | h2
  · exact h2
  · rw [h2] at h
    simp [is_ok] at h

theorem wtype_ignores_stdout (env env2 : Env)
    (h : sameExceptStdout (env wtype_cmd) (env2 wtype_cmd)) :
    release_modifiers_wtype env = release_modifiers_wtype env2 := by
  unfold release_modifiers_wtype
  rcases h1 : env wtype_cmd with e | ⟨s, so, se⟩ <;>
    rcases h2 : env2 wtype_cmd with e2 | ⟨s2, so2, se2⟩ <;>
    rw [h1, h2] at h <;> simp [sameExceptStdout] at h
  · rw [h]
  · rw [h.1, h.2]

theorem ydotool_ignores_stdout (env env2 : Env)
    (h : sameExceptStdout (env ydotool_cmd) (env2 ydotool_cmd)) :
    release_modifiers_ydotool env = release_modifiers_ydotool env2 := by
  unfold release_modifiers_ydotool
  rcases h1 : env ydotool_cmd with e | ⟨s, so, se⟩ <;>
    rcases h2 : env2 ydotool_cmd with e2 | ⟨s2, so2, se2⟩ <;>
    rw [h1, h2] at h <;> simp [sameExceptStdout] at h
  · rw [h]
  · rw [h.1, h.2]

theorem all_ignores_stdout (env env2 : Env)
    (h : ∀ c, sameExceptStdout (env c) (env2 c)) :
    release_all_modifiers env = release_all_modifiers env2 := by
  unfold release_all_modifiers
  rw [wtype_ignores_stdout env env2 (h wtype_cmd),
    ydotool_ignores_stdout env env2 (h ydotool_cmd)]

/-- Claim C1: for every execution in which the `wtype` invocation spawns,
runs to completion, and exits with a success status,
`release_all_modifiers` returns `Ok(())` and `ydotool` is never invoked
in that call. -/
theorem C1_wtype_success_no_ydotool (env : Env) (so se : List Nat)
    (h : env wtype_cmd = SpawnOutcome.exited true so se) :
    (release_all_modifiers env).1 = Except.ok () ∧
      (release_all_modifiers env).2 = [wtype_cmd] ∧
      ∀ c ∈ (release_all_modifiers env).2, c.program ≠ "ydotool" := by
  have hS : statusOk (env wtype_cmd) = true := by rw [h]; rfl
  have hok : is_ok (release_all_modifiers env).1 = true := by
    rw [all_modifiers_ok_eq, hS, Bool.true_or]
  have htr : (release_all_modifiers env).2 = [wtype_cmd] := by
    rw [all_modifiers_trace_eq, hS]
    rfl
  refine ⟨all_modifiers_result_of_ok env hok, htr, ?_⟩
  intro c hc
  rw [htr] at hc
  simp at hc
  rw [hc]
  decide

/-- Witness for C1: the environment in which every spawn exits 0. -/
theorem C1_witness :
    (release_all_modifiers envAllOk).1 = Except.ok () ∧
      (release_all_modifiers envAllOk).2 = [wtype_cmd] ∧
      ∀ c ∈ (release_all_modifiers envAllOk).2, c.program ≠ "ydotool" :=
  C1_wtype_success_no_ydotool envAllOk [] [] rfl

/-- Claim C2: whenever the `wtype` attempt fails (spawn error or
non-zero exit, whatever the stderr text), `ydotool` is invoked next, and
if the `ydotool` invocation exits with status 0 then
`release_all_modifiers` returns `Ok(())`. -/
theorem C2_fallback_to_ydotool (env : Env)
    (h : statusOk (env wtype_cmd) = false) :
    (release_all_modifiers env).2 = [wtype_cmd, ydotool_cmd] ∧
      ∀ so se, env ydotool_cmd = SpawnOutcome.exited true so se →
        (release_all_modifiers env).1 = Except.ok () := by
  constructor
  · rw [all_modifiers_trace_eq, h]
    rfl
  · intro so se hy
    apply all_modifiers_result_of_ok
    rw [all_modifiers_ok_eq, hy]
    simp [statusOk]

/-- Witness for C2: `wtype` is missing (spawn error) and `ydotool`
exits 0; the fallback runs and the call succeeds. -/
theorem C2_witness :
    (release_all_modifiers envWtypeMissing).2 = [wtype_cmd, ydotool_cmd] ∧
      (release_all_modifiers envWtypeMissing).1 = Except.ok () :=
  ⟨(C2_fallback_to_ydotool envWtypeMissing rfl).1,
   (C2_fallback_to_ydotool envWtypeMissing rfl).2 [] [] rfl⟩

/-- Claim C3: whenever both the `wtype` attempt and the `ydotool`
attempt fail (spawn error or non-zero exit, in any combination),
`release_all_modifiers` returns an `Err` whose string mentions both tool
names, "wtype" and "ydotool". -/
theorem C3_both_fail_error_names_both (env : Env)
    (hw : statusOk (env wtype_cmd) = false)
    (hy : statusOk (env ydotool_cmd) = false) :
    ∃ e, (release_all_modifiers env).1 = Except.error e ∧
      (∃ p s, e = p ++ "wtype" ++ s) ∧
      (∃ p s, e = p ++ "ydotool" ++ s) := by
  refine ⟨_, all_modifiers_result_of_fail env hw hy, ?_, ?_⟩
  · exact ⟨"No tool available to release modifiers (tried ", ", ydotool)", rfl⟩
  · exact ⟨"No tool available to release modifiers (tried wtype, ", ")", rfl⟩

/-- Witness for C3: both executables are missing. -/
theorem C3_witness :
    ∃ e, (release_all_modifiers envBothMissing).1 = Except.error e ∧
      (∃ p s, e = p ++ "wtype" ++ s) ∧
      (∃ p s, e = p ++ "ydotool" ++ s) :=
  C3_both_fail_error_names_both envBothMissing rfl rfl

/-- Claim C4: every command spawned during a call to
`release_all_modifiers` is either `wtype` with exactly the five `-m`
modifier flags or `ydotool` with exactly the `key` subcommand and the
eight `code:0` release tokens, in that order, with no other arguments. -/
theorem C4_exact_argument_lists (env : Env) (c : CommandSpec)
    (h : c ∈ (release_all_modifiers env).2) :
    (c.program = "wtype" ∧
      c.args = ["-m", "shift", "-m", "ctrl", "-m", "logo", "-m", "alt", "-m", "altgr"]) ∨
    (c.program = "ydotool" ∧
      c.args = ["key", "42:0", "54:0", "29:0", "97:0", "56:0", "100:0", "125:0", "126:0"]) := by
  rw [all_modifiers_trace_eq] at h
  cases hS : statusOk (env wtype_cmd) <;> rw [hS] at h <;> simp at h
  · rcases h with h | h <;> rw [h]
    · left
      exact ⟨rfl, rfl⟩
    · right
      exact ⟨rfl, rfl⟩
  · rw [h]
    left
    exact ⟨rfl, rfl⟩

/-- Witness for C4: the `wtype` command in the trace of the
both-tools-missing environment. -/
theorem C4_witness :
    (wtype_cmd.program = "wtype" ∧
      wtype_cmd.args = ["-m", "shift", "-m", "ctrl", "-m", "logo", "-m", "alt", "-m", "altgr"]) ∨
    (wtype_cmd.program = "ydotool" ∧
      wtype_cmd.args = ["key", "42:0", "54:0", "29:0", "97:0", "56:0", "100:0", "125:0", "126:0"]) :=
  C4_exact_argument_lists envBothMissing wtype_cmd (by decide)

/-- Claim C5: every error produced during a call — a spawn failure
("{tool} failed: {os error}"), an execution failure with the captured
stderr text ("{tool} error: {stderr}"), and exhaustion of both tools —
is materialised as a descriptive string in a `Result` value handed to
the caller, and the call always terminates with an `Ok` or `Err` value
rather than aborting. -/
theorem C5_errors_are_result_values (env : Env) :
    (∀ e, env wtype_cmd = SpawnOutcome.spawnErr e →
        (release_modifiers_wtype env).1 = Except.error ("wtype failed: " ++ e)) ∧
    (∀ so se, env wtype_cmd = SpawnOutcome.exited false so se →
        (release_modifiers_wtype env).1 =
          Except.error ("wtype error: " ++ from_utf8_lossy se)) ∧
    (∀ e, env ydotool_cmd = SpawnOutcome.spawnErr e →
        (release_modifiers_ydotool env).1 = Except.error ("ydotool failed: " ++ e)) ∧
    (∀ so se, env ydotool_cmd = SpawnOutcome.exited false so se →
        (release_modifiers_ydotool env).1 =
          Except.error ("ydotool error: " ++ from_utf8_lossy se)) ∧
    (statusOk (env wtype_cmd) = false → statusOk (env ydotool_cmd) = false →
        (release_all_modifiers env).1 =
          Except.error "No tool available to release modifiers (tried wtype, ydotool)") ∧
    ((release_all_modifiers env).1 = Except.ok () ∨
        ∃ msg, (release_all_modifiers env).1 = Except.error msg) := by
  refine ⟨?_, ?_, ?_, ?_, all_modifiers_result_of_fail env, ?_⟩
  · intro e h
    unfold release_modifiers_wtype
    rw [h]
  · intro so se h
    unfold release_modifiers_wtype
    rw [h]
    rfl
  · intro e h
    unfold release_modifiers_ydotool
    rw [h]
  · intro so se h
    unfold release_modifiers_ydotool
    rw [h]
    rfl
  · rcases all_modifiers_result_cases env with h | h
    · exact Or.inl h
    · exact Or.inr ⟨_, h⟩

/-- Witness for C5: a missing executable yields the spawn-failure
string, a non-zero exit yields the execution-failure string with the
stderr text, and double failure yields the exhaustion string. -/
theorem C5_witness :
    (release_modifiers_wtype envBothMissing).1 =
        Except.error ("wtype failed: " ++ "No such file or directory (os error 2)") ∧
    (release_modifiers_ydotool envBadUtf8).1 =
        Except.error ("ydotool error: " ++ from_utf8_lossy [255]) ∧
    (release_all_modifiers envBothMissing).1 =
        Except.error "No tool available to release modifiers (tried wtype, ydotool)" :=
  ⟨(C5_errors_are_result_values envBothMissing).1 _ rfl,
   (C5_errors_are_result_values envBadUtf8).2.2.2.1 [] [255] rfl,
   (C5_errors_are_result_values envBothMissing).2.2.2.2.1 rfl rfl⟩

/-- Claim C6: in every call to `release_all_modifiers` each tool is
spawned at most once, `ydotool` appears only after the `wtype` attempt
has completed and failed, and no third attempt ever occurs: the trace is
either `[wtype]` or `[wtype, ydotool]`. -/
theorem C6_at_most_once_sequential (env : Env) :
    ((release_all_modifiers env).2 = [wtype_cmd] ∨
      (release_all_modifiers env).2 = [wtype_cmd, ydotool_cmd]) ∧
    (release_all_modifiers env).2.count wtype_cmd ≤ 1 ∧
    (release_all_modifiers env).2.count ydotool_cmd ≤ 1 ∧
    (ydotool_cmd ∈ (release_all_modifiers env).2 →
      statusOk (env wtype_cmd) = false ∧
      (release_all_modifiers env).2 = [wtype_cmd, ydotool_cmd]) := by
  have htr := all_modifiers_trace_eq env
  cases hS : statusOk (env wtype_cmd) <;> rw [hS] at htr <;> simp only [ite_true,
    ite_false, Bool.false_eq_true, if_false, if_true] at htr <;> rw [htr]
  · refine ⟨Or.inr rfl, by decide, by decide, fun _ => ⟨rfl, rfl⟩⟩
  · refine ⟨Or.inl rfl, by decide, by decide, fun hmem => absurd hmem (by decide)⟩

/-- Claim C7: two executions whose spawn outcomes and exit statuses
agree, whatever the tools write to stdout and stderr, produce the same
success/failure polarity: `is_ok` of the result depends only on the
statuses. -/
theorem C7_polarity_depends_only_on_status (env1 env2 : Env)
    (h : ∀ c, sameStatus (env1 c) (env2 c)) :
    is_ok (release_all_modifiers env1).1 = is_ok (release_all_modifiers env2).1 := by
  rw [all_modifiers_ok_eq, all_modifiers_ok_eq,
    statusOk_eq_of_sameStatus _ _ (h wtype_cmd),
    statusOk_eq_of_sameStatus _ _ (h ydotool_cmd)]

/-- Witness for C7: two environments in which both tools exit 1 but
write different bytes to stderr. -/
theorem C7_witness :
    is_ok (release_all_modifiers envBadUtf8).1 =
      is_ok (release_all_modifiers envBadUtf8Alt).1 :=
  C7_polarity_depends_only_on_status envBadUtf8 envBadUtf8Alt (fun _ => rfl)

/-- Claim C8: every command spawned by `release_all_modifiers`
configures the child's stdout as null (discarded) and its stderr as
piped (captured); moreover the bytes the tools write to stdout never
influence the call's result, so stdout content is never read or
reported. -/
theorem C8_stdout_null_stderr_piped (env : Env) :
    (∀ c ∈ (release_all_modifiers env).2,
        c.stdoutCfg = Stdio.null ∧ c.stderrCfg = Stdio.piped) ∧
    (∀ env2 : Env, (∀ c, sameExceptStdout (env c) (env2 c)) →
        release_all_modifiers env = release_all_modifiers env2) := by
  constructor
  · intro c hc
    rw [all_modifiers_trace_eq] at hc
    cases hS : statusOk (env wtype_cmd) <;> rw [hS] at hc <;> simp at hc
    · rcases hc with hc | hc <;> rw [hc] <;> exact ⟨rfl, rfl⟩
    · rw [hc]
      exact ⟨rfl, rfl⟩
  · intro env2 h
    exact all_ignores_stdout env env2 h

/-- Witness for C8: the `wtype` command's stdio configuration, and two
environments differing only in stdout bytes giving identical results. -/
theorem C8_witness :
    (wtype_cmd.stdoutCfg = Stdio.null ∧ wtype_cmd.stderrCfg = Stdio.piped) ∧
    release_all_modifiers envAllOk = release_all_modifiers envStdoutNoise :=
  ⟨(C8_stdout_null_stderr_piped envAllOk).1 wtype_cmd (by decide),
   (C8_stdout_null_stderr_piped envAllOk).2 envStdoutNoise (fun _ => ⟨rfl, rfl⟩)⟩

/-- Claim C9: whenever `release_all_modifiers` returns an `Err`, the
error string is exactly
"No tool available to release modifiers (tried wtype, ydotool)"; the
per-tool diagnostic strings are discarded by the `is_ok()` checks. -/
theorem C9_error_is_constant_string (env : Env) (e : String)
    (h : (release_all_modifiers env).1 = Except.error e) :
    e = "No tool available to release modifiers (tried wtype, ydotool)" := by
  rcases all_modifiers_result_cases env with h2 | h2
  · exact absurd (h.symm.trans h2) (by simp)
  · exact Except.error.inj (h.symm.trans h2)

/-- Witness for C9: both executables missing; the returned error is the
constant string. -/
theorem C9_witness :
    "No tool available to release modifiers (tried wtype, ydotool)" =
      "No tool available to release modifiers (tried wtype, ydotool)" :=
  C9_error_is_constant_string envBothMissing _ rfl

/-- Claim C10: for every byte sequence a tool writes to stderr,
including invalid UTF-8, the call completes with an `Ok` or `Err` value
(total, no panic), and the captured stderr bytes are embedded in the
diagnostic message through the lossy UTF-8 conversion. -/
theorem C10_lossy_never_panics (env : Env) :
    ((release_all_modifiers env).1 = Except.ok () ∨
      ∃ e, (release_all_modifiers env).1 = Except.error e) ∧
    (∀ so se, env wtype_cmd = SpawnOutcome.exited false so se →
        (release_modifiers_wtype env).1 =
          Except.error ("wtype error: " ++ from_utf8_lossy se)) ∧
    (∀ so se, env ydotool_cmd = SpawnOutcome.exited false so se →
        (release_modifiers_ydotool env).1 =
          Except.error ("ydotool error: " ++ from_utf8_lossy se)) := by
  refine ⟨?_, ?_, ?_⟩
  · rcases all_modifiers_result_cases env with h | h
    · exact Or.inl h
    · exact Or.inr ⟨_, h⟩
  · intro so se h
    unfold release_modifiers_wtype
    rw [h]
    rfl
  · intro so se h
    unfold release_modifiers_ydotool
    rw [h]
    rfl

/-- Witness for C10: a tool writes the invalid UTF-8 byte 0xFF to
stderr; the diagnostic contains the replacement character U+FFFD. -/
theorem C10_witness :
    (release_modifiers_wtype envBadUtf8).1 = Except.error "wtype error: �" := by
  have h := (C10_lossy_never_panics envBadUtf8).2.1 [] [255] rfl
  rw [h]
  rfl

end Voxtype
